import Mathlib

/-!
Shallow embedding of the habit-tracker core (src/app.py and
src/tracker_utils.py): the goal store, the history store, the cadence
gate, the progress engine and the derived views, together with theorems
checking the specification's claims about them.

Progress scores are modelled as exact rationals; calendar dates as
(year, month, day) triples with the proleptic-Gregorian ordinal and the
ISO week-number algorithm that Python's `date.isocalendar` implements.
-/

namespace Tracker

/-- A calendar date, mirroring Python's `datetime.date`. -/
structure Date where
  year : Nat
  month : Nat
  day : Nat
deriving DecidableEq, Repr

/-- Gregorian leap-year test. -/
def isLeap (y : Nat) : Bool :=
  (y % 4 == 0 && y % 100 != 0) || (y % 400 == 0)

/-- Days in the year strictly before month `m` (1-based), as in the CPython
`datetime` module's `_days_before_month`. -/
def daysBeforeMonth (m : Nat) (leap : Bool) : Nat :=
  let base := [0, 0, 31, 59, 90, 120, 151, 181, 212, 243, 273, 304, 334].getD m 0
  if leap && m ≥ 3 then base + 1 else base

/-- Proleptic-Gregorian ordinal of a date (1 = 0001-01-01), mirroring
Python's `date.toordinal`. -/
def toOrdinal (d : Date) : Int :=
  let y : Int := d.year
  365 * (y - 1) + (y - 1) / 4 - (y - 1) / 100 + (y - 1) / 400
    + daysBeforeMonth d.month (isLeap d.year) + d.day

/-- Ordinal of the Monday starting ISO week 1 of `year`, mirroring CPython's
`_isoweek1monday`. -/
def isoweek1monday (year : Nat) : Int :=
  let firstday := toOrdinal ⟨year, 1, 1⟩
  let firstweekday := (firstday + 6) % 7
  let week1monday := firstday - firstweekday
  if firstweekday > 3 then week1monday + 7 else week1monday

/-- The (ISO year, ISO week number) of a date, mirroring the first two
components of Python's `date.isocalendar`. -/
def isocalendarYearWeek (d : Date) : Nat × Nat :=
  let t := toOrdinal d
  let week := Int.fdiv (t - isoweek1monday d.year) 7
  if week < 0 then
    (d.year - 1, (Int.fdiv (t - isoweek1monday (d.year - 1)) 7 + 1).toNat)
  else if week ≥ 52 ∧ isoweek1monday (d.year + 1) ≤ t then
    (d.year + 1, 1)
  else
    (d.year, (week + 1).toNat)

/-- Function `get_week_number` from src/app.py and src/tracker_utils.py:
`d.isocalendar()[1]`. -/
def get_week_number (d : Date) : Nat :=
  (isocalendarYearWeek d).2

-- Sanity checks of the calendar arithmetic against known ISO dates.
example : get_week_number ⟨2024, 1, 1⟩ = 1 := by decide
example : get_week_number ⟨2024, 1, 10⟩ = 2 := by decide
example : isocalendarYearWeek ⟨2025, 1, 8⟩ = (2025, 2) := by decide
example : isocalendarYearWeek ⟨2023, 1, 1⟩ = (2022, 52) := by decide
example : isocalendarYearWeek ⟨2027, 1, 1⟩ = (2026, 53) := by decide
example : isocalendarYearWeek ⟨2020, 12, 31⟩ = (2020, 53) := by decide
example : isocalendarYearWeek ⟨2016, 1, 3⟩ = (2015, 53) := by decide
example : toOrdinal ⟨1, 1, 1⟩ = 1 := by decide

/-- One row of the goal table of src/app.py
(`GoalID, GoalName, Frequency, Progress, DateAdded, Week`). -/
structure GoalRow where
  goalID : String
  goalName : String
  frequency : String
  progress : ℚ
  dateAdded : Date
  week : Nat
deriving DecidableEq, Repr

/-- One row of the history table
(`GoalID, GoalName, Date, Progress, Percentage, Change`). -/
structure HistRow where
  goalID : String
  goalName : String
  date : Date
  progress : ℚ
  percentage : Int
  change : ℚ
deriving DecidableEq, Repr

/-- The in-memory session state of src/app.py: the goal table and the
history table. -/
structure State where
  data : List GoalRow
  history : List HistRow
deriving DecidableEq, Repr

/-- The empty session state (both tables empty). -/
def State.empty : State := ⟨[], []⟩

/-- Constant `DAILY_UP_FACTOR` from src/app.py. -/
def DAILY_UP_FACTOR : ℚ := 1.01
/-- Constant `HALF_UP_FACTOR` from src/app.py. -/
def HALF_UP_FACTOR : ℚ := 1.005
/-- Constant `DOWN_FACTOR` from src/app.py. -/
def DOWN_FACTOR : ℚ := 1.01

/-- Function `add_goal` from src/app.py: assigns the id `G(len(data)+1)`, appends a
goal row with progress 1.0 and a seed history row dated today with
percentage 0 and change 0. Returns the new state and the assigned id. -/
def add_goal (s : State) (name freq : String) (today : Date) : State × String :=
  let next_id := s.data.length + 1
  let goal_id := "G" ++ toString next_id
  let week := get_week_number today
  let new_row : GoalRow :=
    { goalID := goal_id, goalName := name.trim, frequency := freq,
      progress := 1.0, dateAdded := today, week := week }
  let hist_row : HistRow :=
    { goalID := goal_id, goalName := name.trim, date := today,
      progress := 1.0, percentage := 0, change := 0.0 }
  ({ data := s.data ++ [new_row], history := s.history ++ [hist_row] }, goal_id)

/-- Function `_get_goal_frequency` from src/app.py: frequency of the first goal row
with the given id, falling back to "Daily" when none matches. -/
def get_goal_frequency (s : State) (goal_id : String) : String :=
  match (s.data.filter (fun g => g.goalID == goal_id)).head? with
  | some g => g.frequency
  | none => "Daily"

/-- Result of an update attempt in src/app.py's `update_progress`: either the
cadence gate rejects with the `st.error` message, or the update succeeds with
the new progress value. -/
inductive UpdateResult where
  | cadenceRejected (reason : String)
  | success (newProgress : ℚ)
deriving DecidableEq, Repr

/-- The `if pct == 100 / elif pct == 50 / else` branch of src/app.py's
`update_progress`, new-progress component. -/
def engineNewProgress (current_progress : ℚ) (pct : Int) : ℚ :=
  if pct = 100 then current_progress * DAILY_UP_FACTOR
  else if pct = 50 then current_progress * HALF_UP_FACTOR
  else current_progress / DOWN_FACTOR

/-- The `if pct == 100 / elif pct == 50 / else` branch of src/app.py's
`update_progress`, change component. -/
def engineChange (pct : Int) : ℚ :=
  if pct = 100 then DAILY_UP_FACTOR - 1.0
  else if pct = 50 then HALF_UP_FACTOR - 1.0
  else -(DOWN_FACTOR - 1.0)

/-- The body of src/app.py's `update_progress` after the cadence gate: look
up the current progress of the first matching goal row (`none` models the
IndexError the source raises when no row matches), apply the branch on `pct`,
overwrite `Progress` of every matching goal row and append the history row. -/
def applyUpdate (s : State) (goal_id goal_name : String) (pct : Int)
    (today : Date) : Option (State × UpdateResult) :=
  match (s.data.filter (fun g => g.goalID == goal_id)).head? with
  | none => none
  | some g =>
    let new_progress := engineNewProgress g.progress pct
    let change := engineChange pct
    let data' := s.data.map (fun x =>
      if x.goalID == goal_id then { x with progress := new_progress } else x)
    let row : HistRow :=
      { goalID := goal_id, goalName := goal_name, date := today,
        progress := new_progress, percentage := pct, change := change }
    some ({ data := data', history := s.history ++ [row] }, .success new_progress)

/-- Function `update_progress` from src/app.py: the cadence gate (per the goal's
frequency) followed by the progress-engine update. A rejected update returns
the state unchanged with the `st.error` message; `none` models the uncaught
IndexError on a missing goal id. -/
def update_progress (s : State) (goal_id goal_name : String) (pct : Int)
    (today : Date) : Option (State × UpdateResult) :=
  let current_week := get_week_number today
  let freq := get_goal_frequency s goal_id
  let hist := s.history
  if freq = "Weekly" then
    if hist.filter (fun h => h.goalID == goal_id &&
        get_week_number h.date == current_week) = [] then
      applyUpdate s goal_id goal_name pct today
    else
      some (s, .cadenceRejected ("Already updated for week " ++ toString current_week ++ "."))
  else if freq = "Monthly" then
    if hist.filter (fun h => h.goalID == goal_id &&
        (h.date.year == today.year && h.date.month == today.month)) = [] then
      applyUpdate s goal_id goal_name pct today
    else
      some (s, .cadenceRejected "Already updated this month.")
  else
    if hist.filter (fun h => h.goalID == goal_id && h.date == today) = [] then
      applyUpdate s goal_id goal_name pct today
    else
      some (s, .cadenceRejected "Already updated today.")

/-- Function `delete_goal` from src/app.py: drop every goal row and every history row
carrying the deleted id. -/
def delete_goal (s : State) (goal_id : String) : State :=
  { data := s.data.filter (fun g => !(g.goalID == goal_id)),
    history := s.history.filter (fun h => !(h.goalID == goal_id)) }

/-- Function `calculate_potential_progress` from src/app.py: `days = (today -
start_date).days`, then multiply 1.0 by `DAILY_UP_FACTOR` once for each
iteration of `range(days + 1)`. -/
def calculate_potential_progress (today start_date : Date) : ℚ :=
  let days : Int := toOrdinal today - toOrdinal start_date
  (List.range (days + 1).toNat).foldl (fun p _ => p * DAILY_UP_FACTOR) 1.0

/-- One user-level operation on the session state of src/app.py. -/
inductive Op where
  | add (name freq : String) (today : Date)
  | update (goal_id goal_name : String) (pct : Int) (today : Date)
  | del (goal_id : String)
deriving DecidableEq, Repr

/-- Apply one operation to the state. An update that raises (missing goal
id) leaves the state unchanged: the source raises before any mutation. -/
def step (s : State) : Op → State
  | .add name freq today => (add_goal s name freq today).1
  | .update goal_id goal_name pct today =>
    match update_progress s goal_id goal_name pct today with
    | some (s', _) => s'
    | none => s
  | .del goal_id => delete_goal s goal_id

/-- Run a sequence of operations from a starting state. -/
def run (s : State) (ops : List Op) : State :=
  ops.foldl step s

namespace TU

/-- One row of the goal table of src/tracker_utils.py (it also carries a
`DueDate` column). -/
structure Goal where
  goalID : String
  goalName : String
  dueDate : Date
  frequency : String
  progress : ℚ
  dateAdded : Date
  week : Nat
deriving DecidableEq, Repr

/-- The dictionary src/tracker_utils.py's `update_goal` returns: either
`{"error": ...}` or `{"message": ..., "new_progress": ...}`. -/
inductive Result where
  | error (msg : String)
  | ok (msg : String) (new_progress : ℚ)
deriving DecidableEq, Repr

/-- Function `update_goal` from src/tracker_utils.py, with the loaded tables passed in
and the saved tables returned (the error path returns before `save_data`, so
both tables come back unchanged there). -/
def update_goal (data : List Goal) (history : List HistRow) (goal_id : String)
    (percentage : Int) (current_date : Date) :
    List Goal × List HistRow × Result :=
  let goal_row := data.filter (fun g => g.goalID == goal_id)
  match goal_row.head? with
  | none => (data, history, .error "Goal ID not found")
  | some g =>
    let current_progress := g.progress
    let (new_progress, change) :=
      if percentage = 100 then (current_progress * 1.01, (0.01 : ℚ))
      else if percentage = 50 then (current_progress * 1.005, (0.005 : ℚ))
      else (current_progress / 1.01, (-0.01 : ℚ))
    let data' := data.map (fun x =>
      if x.goalID == goal_id then { x with progress := new_progress } else x)
    let entry : HistRow :=
      { goalID := goal_id, goalName := g.goalName, date := current_date,
        progress := new_progress, percentage := percentage, change := change }
    (data', history ++ [entry], .ok "Goal updated" new_progress)

end TU

/-- The blocking test of the cadence gate of src/app.py's `update_progress`:
one history row blocks when it carries the goal's id and falls in the current
gating period of the goal's frequency. -/
def gateBlocks (freq goal_id : String) (today : Date) (h : HistRow) : Bool :=
  h.goalID == goal_id &&
    (if freq = "Weekly" then get_week_number h.date == get_week_number today
     else if freq = "Monthly" then
       h.date.year == today.year && h.date.month == today.month
     else h.date == today)

/-- The `st.error` message src/app.py's `update_progress` emits when the
cadence gate blocks, per frequency. -/
def gateReason (freq : String) (today : Date) : String :=
  if freq = "Weekly" then
    "Already updated for week " ++ toString (get_week_number today) ++ "."
  else if freq = "Monthly" then "Already updated this month."
  else "Already updated today."

/-- Example state: one Daily goal `G1` with progress 1, created 2025-01-01,
together with its creation-day seed history event. -/
def exDaily : State :=
  { data := [⟨"G1", "gym", "Daily", 1, ⟨2025, 1, 1⟩, 1⟩],
    history := [⟨"G1", "gym", ⟨2025, 1, 1⟩, 1, 0, 0⟩] }

/-- Example state: one Weekly goal `G1` created 2024-01-10 (ISO week 2 of
2024), with its seed history event. -/
def exWeekly : State :=
  { data := [⟨"G1", "gym", "Weekly", 1, ⟨2024, 1, 10⟩, 2⟩],
    history := [⟨"G1", "gym", ⟨2024, 1, 10⟩, 1, 0, 0⟩] }

/-- Example state: one Daily goal `G1` whose progress has reached 2. -/
def exProg2 : State :=
  { data := [⟨"G1", "gym", "Daily", 2, ⟨2025, 1, 1⟩, 1⟩],
    history := [⟨"G1", "gym", ⟨2025, 1, 1⟩, 2, 0, 0⟩] }

/-- Example state: one Daily goal `G1` created 2025-01-08 that was already
updated on 2025-01-09 (a non-creation-day, already-updated scenario). -/
def exTwoDay : State :=
  { data := [⟨"G1", "a", "Daily", 101/100, ⟨2025, 1, 8⟩, 2⟩],
    history := [⟨"G1", "a", ⟨2025, 1, 8⟩, 1, 0, 0⟩,
                ⟨"G1", "a", ⟨2025, 1, 9⟩, 101/100, 100, 1/100⟩] }

/-!  Helper lemmas shared by the claim theorems. -/

theorem filter_nil_iff_any_false {α : Type} (l : List α) (p : α → Bool) :
    l.filter p = [] ↔ l.any p = false := by
  simp [List.filter_eq_nil_iff, List.any_eq_false]

theorem applyUpdate_of_head (s : State) (goal_id goal_name : String) (pct : Int)
    (today : Date) (g : GoalRow)
    (hg : (s.data.filter (fun x => x.goalID == goal_id)).head? = some g) :
    applyUpdate s goal_id goal_name pct today =
      some ({ data := s.data.map (fun x =>
                if x.goalID == goal_id then
                  { x with progress := engineNewProgress g.progress pct } else x),
              history := s.history ++
                [⟨goal_id, goal_name, today, engineNewProgress g.progress pct,
                  pct, engineChange pct⟩] },
            .success (engineNewProgress g.progress pct)) := by
  unfold applyUpdate
  rw [hg]

theorem gateBlocks_weekly (goal_id : String) (today : Date) :
    gateBlocks "Weekly" goal_id today =
      fun h => h.goalID == goal_id &&
        (get_week_number h.date == get_week_number today) := by
  funext h
  unfold gateBlocks
  rw [if_pos rfl]

theorem gateBlocks_monthly (goal_id : String) (today : Date) :
    gateBlocks "Monthly" goal_id today =
      fun h => h.goalID == goal_id &&
        (h.date.year == today.year && h.date.month == today.month) := by
  funext h
  unfold gateBlocks
  rw [if_neg (by decide), if_pos rfl]

theorem gateBlocks_other (freq goal_id : String) (today : Date)
    (h1 : freq ≠ "Weekly") (h2 : freq ≠ "Monthly") :
    gateBlocks freq goal_id today =
      fun h => h.goalID == goal_id && (h.date == today) := by
  funext h
  unfold gateBlocks
  rw [if_neg h1, if_neg h2]

theorem gateReason_weekly (today : Date) :
    gateReason "Weekly" today =
      "Already updated for week " ++ toString (get_week_number today) ++ "." := by
  unfold gateReason
  rw [if_pos rfl]

theorem gateReason_monthly (today : Date) :
    gateReason "Monthly" today = "Already updated this month." := by
  unfold gateReason
  rw [if_neg (by decide), if_pos rfl]

theorem gateReason_other (freq : String) (today : Date)
    (h1 : freq ≠ "Weekly") (h2 : freq ≠ "Monthly") :
    gateReason freq today = "Already updated today." := by
  unfold gateReason
  rw [if_neg h1, if_neg h2]

theorem update_progress_eq (s : State) (goal_id goal_name : String) (pct : Int)
    (today : Date) :
    update_progress s goal_id goal_name pct today =
      if s.history.any (gateBlocks (get_goal_frequency s goal_id) goal_id today) then
        some (s, .cadenceRejected (gateReason (get_goal_frequency s goal_id) today))
      else applyUpdate s goal_id goal_name pct today := by
  unfold update_progress
  by_cases hw : get_goal_frequency s goal_id = "Weekly"
  · rw [hw, gateBlocks_weekly, gateReason_weekly, if_pos rfl]
    by_cases hb : (s.history.any fun h => h.goalID == goal_id &&
        (get_week_number h.date == get_week_number today)) = true
    · have hnil : ¬ (s.history.filter fun h => h.goalID == goal_id &&
          (get_week_number h.date == get_week_number today)) = [] := by
        rw [filter_nil_iff_any_false, hb]
        simp
      rw [if_pos hb, if_neg hnil]
    · have hnil : (s.history.filter fun h => h.goalID == goal_id &&
          (get_week_number h.date == get_week_number today)) = [] := by
        rw [filter_nil_iff_any_false]
        exact Bool.eq_false_iff.mpr hb
      rw [if_neg hb, if_pos hnil]
  · by_cases hm : get_goal_frequency s goal_id = "Monthly"
    · rw [hm, gateBlocks_monthly, gateReason_monthly,
        if_neg (by decide : ¬("Monthly" : String) = "Weekly"), if_pos rfl]
      by_cases hb : (s.history.any fun h => h.goalID == goal_id &&
          (h.date.year == today.year && h.date.month == today.month)) = true
      · have hnil : ¬ (s.history.filter fun h => h.goalID == goal_id &&
            (h.date.year == today.year && h.date.month == today.month)) = [] := by
          rw [filter_nil_iff_any_false, hb]
          simp
        rw [if_pos hb, if_neg hnil]
      · have hnil : (s.history.filter fun h => h.goalID == goal_id &&
            (h.date.year == today.year && h.date.month == today.month)) = [] := by
          rw [filter_nil_iff_any_false]
          exact Bool.eq_false_iff.mpr hb
        rw [if_neg hb, if_pos hnil]
    · rw [gateBlocks_other _ _ _ hw hm, gateReason_other _ _ hw hm,
        if_neg hw, if_neg hm]
      by_cases hb : (s.history.any fun h => h.goalID == goal_id &&
          (h.date == today)) = true
      · have hnil : ¬ (s.history.filter fun h => h.goalID == goal_id &&
            (h.date == today)) = [] := by
          rw [filter_nil_iff_any_false, hb]
          simp
        rw [if_pos hb, if_neg hnil]
      · have hnil : (s.history.filter fun h => h.goalID == goal_id &&
            (h.date == today)) = [] := by
          rw [filter_nil_iff_any_false]
          exact Bool.eq_false_iff.mpr hb
        rw [if_neg hb, if_pos hnil]

theorem update_progress_success_elim (s : State) (goal_id goal_name : String)
    (pct : Int) (today : Date) (s' : State) (np : ℚ)
    (h : update_progress s goal_id goal_name pct today = some (s', .success np)) :
    applyUpdate s goal_id goal_name pct today = some (s', .success np) := by
  rw [update_progress_eq] at h
  split at h
  · simp at h
  · exact h

theorem applyUpdate_success_elim (s : State) (goal_id goal_name : String)
    (pct : Int) (today : Date) (s' : State) (np : ℚ)
    (h : applyUpdate s goal_id goal_name pct today = some (s', .success np)) :
    ∃ g, (s.data.filter (fun x => x.goalID == goal_id)).head? = some g ∧
      np = engineNewProgress g.progress pct ∧
      s' = { data := s.data.map (fun x =>
               if x.goalID == goal_id then { x with progress := np } else x),
             history := s.history ++
               [⟨goal_id, goal_name, today, np, pct, engineChange pct⟩] } := by
  unfold applyUpdate at h
  split at h
  · exact absurd h (by simp)
  next g hg =>
    simp only [Option.some.injEq, Prod.mk.injEq, UpdateResult.success.injEq] at h
    obtain ⟨h1, h2⟩ := h
    subst h2
    exact ⟨g, hg, rfl, h1.symm⟩

theorem foldl_mul_range (c a : ℚ) (n : Nat) :
    (List.range n).foldl (fun p _ => p * c) a = a * c ^ n := by
  induction n generalizing a with
  | zero => simp
  | succ k ih =>
    rw [List.range_succ, List.foldl_append]
    simp only [List.foldl_cons, List.foldl_nil, ih]
    rw [pow_succ]
    ring

/-- The state of src/app.py after recording outcome 100 on `exDaily` the day
after creation. -/
def exDailyAfter100 : State :=
  { data := [⟨"G1", "gym", "Daily", 101/100, ⟨2025, 1, 1⟩, 1⟩],
    history := [⟨"G1", "gym", ⟨2025, 1, 1⟩, 1, 0, 0⟩,
                ⟨"G1", "gym", ⟨2025, 1, 2⟩, 101/100, 100, 1/100⟩] }

/-- The state of src/app.py after recording a non-100, non-50 outcome `pct`
on `exDaily` the day after creation. -/
def exDailyAfterDefault (pct : Int) : State :=
  { data := [⟨"G1", "gym", "Daily", 100/101, ⟨2025, 1, 1⟩, 1⟩],
    history := [⟨"G1", "gym", ⟨2025, 1, 1⟩, 1, 0, 0⟩,
                ⟨"G1", "gym", ⟨2025, 1, 2⟩, 100/101, pct, -(1/100)⟩] }

/-- Example goal table for src/tracker_utils.py with a single goal `G1`. -/
def exTUData : List TU.Goal :=
  [⟨"G1", "gym", ⟨2025, 2, 1⟩, "Daily", 1, ⟨2025, 1, 1⟩, 1⟩]

theorem update_progress_exDaily (pct : Int) :
    update_progress exDaily "G1" "gym" pct ⟨2025, 1, 2⟩ =
      some ({ data := [⟨"G1", "gym", "Daily", engineNewProgress 1 pct, ⟨2025, 1, 1⟩, 1⟩],
              history := [⟨"G1", "gym", ⟨2025, 1, 1⟩, 1, 0, 0⟩,
                          ⟨"G1", "gym", ⟨2025, 1, 2⟩, engineNewProgress 1 pct, pct,
                            engineChange pct⟩] },
            .success (engineNewProgress 1 pct)) := by
  rw [update_progress_eq, if_neg (by decide),
    applyUpdate_of_head _ _ _ _ _ ⟨"G1", "gym", "Daily", 1, ⟨2025, 1, 1⟩, 1⟩ (by decide)]
  simp [exDaily]

/-- Claim C1 (amended): every successful `record_progress` applies the
multiplicative rule of the source — outcome 100 multiplies the prior
progress by 1.01 and stores change +0.01, outcome 50 multiplies by 1.005
and stores change +0.005, every other outcome divides by 1.01 and stores
change exactly -(1.01 - 1) = -0.01 (not -(1.01 - 1)/1.01). -/
theorem claim1_scoring_rule (s : State) (goal_id goal_name : String) (pct : Int)
    (today : Date) (s' : State) (np : ℚ)
    (h : update_progress s goal_id goal_name pct today = some (s', .success np)) :
    ∃ g, (s.data.filter (fun x => x.goalID == goal_id)).head? = some g ∧
      np = (if pct = 100 then g.progress * 1.01
            else if pct = 50 then g.progress * 1.005
            else g.progress / 1.01) ∧
      s'.history.getLast? = some ⟨goal_id, goal_name, today, np, pct,
        if pct = 100 then (0.01 : ℚ) else if pct = 50 then 0.005 else -0.01⟩ := by
  obtain ⟨g, hg, hnp, hs'⟩ := applyUpdate_success_elim _ _ _ _ _ _ _
    (update_progress_success_elim _ _ _ _ _ _ _ h)
  subst hnp
  subst hs'
  have hch : engineChange pct =
      (if pct = 100 then (0.01 : ℚ) else if pct = 50 then 0.005 else -0.01) := by
    by_cases h1 : pct = 100
    · norm_num [engineChange, DAILY_UP_FACTOR, h1]
    · by_cases h2 : pct = 50
      · norm_num [engineChange, HALF_UP_FACTOR, h1, h2]
      · norm_num [engineChange, DOWN_FACTOR, h1, h2]
  refine ⟨g, hg, ?_, ?_⟩
  · unfold engineNewProgress DAILY_UP_FACTOR HALF_UP_FACTOR DOWN_FACTOR
    rfl
  · rw [List.getLast?_concat, hch]

/-- Claim C1 witness: recording outcome 100 on a Daily goal with progress 1
the day after creation succeeds and follows the multiplicative rule. -/
theorem claim1_scoring_rule_witness :
    (update_progress exDaily "G1" "gym" 100 ⟨2025, 1, 2⟩ =
      some (exDailyAfter100, .success (101/100))) ∧
    ∃ g, (exDaily.data.filter (fun x => x.goalID == "G1")).head? = some g ∧
      (101/100 : ℚ) = (if (100 : Int) = 100 then g.progress * 1.01
            else if (100 : Int) = 50 then g.progress * 1.005
            else g.progress / 1.01) ∧
      exDailyAfter100.history.getLast? = some ⟨"G1", "gym", ⟨2025, 1, 2⟩, 101/100, 100,
        if (100 : Int) = 100 then (0.01 : ℚ)
        else if (100 : Int) = 50 then 0.005 else -0.01⟩ := by
  have hup : update_progress exDaily "G1" "gym" 100 ⟨2025, 1, 2⟩ =
      some (exDailyAfter100, .success (101/100)) := by
    rw [update_progress_exDaily]
    norm_num [engineNewProgress, engineChange, DAILY_UP_FACTOR, exDailyAfter100]
  exact ⟨hup, claim1_scoring_rule exDaily "G1" "gym" 100 ⟨2025, 1, 2⟩
    exDailyAfter100 (101/100) hup⟩

/-- Claim C1 counterexample: a successful zero-outcome update stores change
exactly -(1.01 - 1) = -1/100, which differs from the claimed value
-(1.01 - 1)/1.01. -/
theorem claim1_counterexample :
    update_progress exDaily "G1" "gym" 0 ⟨2025, 1, 2⟩ =
      some (exDailyAfterDefault 0, .success (100/101)) ∧
    (exDailyAfterDefault 0).history.getLast?.map (fun e => e.change) = some (-(1/100)) ∧
    (-(1/100) : ℚ) ≠ -((1.01 - 1)/1.01) := by
  refine ⟨?_, rfl, by norm_num⟩
  rw [update_progress_exDaily]
  norm_num [engineNewProgress, engineChange, DOWN_FACTOR, exDailyAfterDefault]

/-- Claim C2 (amended): with the goal present, `update_progress` rejects with
the state unchanged and the frequency's already-updated message exactly when
some history event of the goal falls in the current gating period, where the
Weekly period is the ISO week number alone — the ISO year is ignored;
otherwise the update succeeds. -/
theorem claim2_cadence_gate (s : State) (goal_id goal_name : String) (pct : Int)
    (today : Date) (g : GoalRow)
    (hg : (s.data.filter (fun x => x.goalID == goal_id)).head? = some g) :
    ((s.history.any (gateBlocks (get_goal_frequency s goal_id) goal_id today)) = true →
      update_progress s goal_id goal_name pct today =
        some (s, .cadenceRejected (gateReason (get_goal_frequency s goal_id) today))) ∧
    ((s.history.any (gateBlocks (get_goal_frequency s goal_id) goal_id today)) = false →
      ∃ s' np, update_progress s goal_id goal_name pct today =
        some (s', .success np)) := by
  constructor
  · intro hb
    rw [update_progress_eq, if_pos hb]
  · intro hb
    rw [update_progress_eq, if_neg (by rw [hb]; simp)]
    exact ⟨_, _, applyUpdate_of_head _ _ _ _ _ _ hg⟩

/-- Claim C2 witness: the Weekly goal of `exWeekly` is blocked on 2025-01-08
because its seed event of 2024-01-10 shares ISO week number 2. -/
theorem claim2_cadence_gate_witness :
    ((exWeekly.data.filter (fun x => x.goalID == "G1")).head? =
      some ⟨"G1", "gym", "Weekly", 1, ⟨2024, 1, 10⟩, 2⟩) ∧
    (((exWeekly.history.any (gateBlocks (get_goal_frequency exWeekly "G1") "G1"
        ⟨2025, 1, 8⟩)) = true →
      update_progress exWeekly "G1" "gym" 100 ⟨2025, 1, 8⟩ =
        some (exWeekly, .cadenceRejected
          (gateReason (get_goal_frequency exWeekly "G1") ⟨2025, 1, 8⟩))) ∧
    ((exWeekly.history.any (gateBlocks (get_goal_frequency exWeekly "G1") "G1"
        ⟨2025, 1, 8⟩)) = false →
      ∃ s' np, update_progress exWeekly "G1" "gym" 100 ⟨2025, 1, 8⟩ =
        some (s', .success np))) :=
  ⟨by decide,
   claim2_cadence_gate exWeekly "G1" "gym" 100 ⟨2025, 1, 8⟩
     ⟨"G1", "gym", "Weekly", 1, ⟨2024, 1, 10⟩, 2⟩ (by decide)⟩

/-- Claim C2 counterexample: the seed event of `exWeekly` lies in a different
ISO year (2024 vs 2025) and so, per the claim, should not block an update on
2025-01-08; the code rejects it nevertheless because it compares week numbers
only. -/
theorem claim2_counterexample :
    isocalendarYearWeek ⟨2024, 1, 10⟩ ≠ isocalendarYearWeek ⟨2025, 1, 8⟩ ∧
    exWeekly.history = [⟨"G1", "gym", ⟨2024, 1, 10⟩, 1, 0, 0⟩] ∧
    update_progress exWeekly "G1" "gym" 100 ⟨2025, 1, 8⟩ =
      some (exWeekly, .cadenceRejected "Already updated for week 2.") := by
  refine ⟨by decide, rfl, by decide⟩

/-- Claim C6: after `delete_goal`, no goal row and no history row with the
deleted id remains; the surviving rows are exactly the rows of other goals,
kept in order (both result tables are sublists of the originals). -/
theorem claim6_delete_cascades (s : State) (goal_id : String) :
    (∀ g : GoalRow, g ∈ (delete_goal s goal_id).data ↔
        g ∈ s.data ∧ g.goalID ≠ goal_id) ∧
    (∀ e : HistRow, e ∈ (delete_goal s goal_id).history ↔
        e ∈ s.history ∧ e.goalID ≠ goal_id) ∧
    (delete_goal s goal_id).data.Sublist s.data ∧
    (delete_goal s goal_id).history.Sublist s.history := by
  refine ⟨fun g => ?_, fun e => ?_, List.filter_sublist _, List.filter_sublist _⟩
  · simp [delete_goal, List.mem_filter]
  · simp [delete_goal, List.mem_filter]

/-- Claim C7 (amended): the Potential Progress view computes
1.01 ^ (days_since(date_added, today) + 1), one factor more than the claimed
1.01 ^ days_since(date_added, today). -/
theorem claim7_potential_progress (today start_date : Date)
    (h : toOrdinal start_date ≤ toOrdinal today) :
    calculate_potential_progress today start_date =
      (1.01 : ℚ) ^ ((toOrdinal today - toOrdinal start_date).toNat + 1) := by
  unfold calculate_potential_progress
  rw [foldl_mul_range]
  have hdays : ((toOrdinal today - toOrdinal start_date) + 1).toNat =
      (toOrdinal today - toOrdinal start_date).toNat + 1 := by omega
  rw [hdays]
  unfold DAILY_UP_FACTOR
  norm_num

/-- Claim C7 witness: one day after creation the potential progress is
1.01 squared. -/
theorem claim7_potential_progress_witness :
    (toOrdinal ⟨2025, 1, 1⟩ ≤ toOrdinal ⟨2025, 1, 2⟩) ∧
    calculate_potential_progress ⟨2025, 1, 2⟩ ⟨2025, 1, 1⟩ =
      (1.01 : ℚ) ^ ((toOrdinal ⟨2025, 1, 2⟩ - toOrdinal ⟨2025, 1, 1⟩).toNat + 1) :=
  ⟨by decide, claim7_potential_progress ⟨2025, 1, 2⟩ ⟨2025, 1, 1⟩ (by decide)⟩

/-- Claim C7 counterexample: on the creation day itself, `days_since` is 0,
so the claim predicts 1.01 ^ 0 = 1, but the code returns 1.01. -/
theorem claim7_counterexample :
    calculate_potential_progress ⟨2025, 1, 8⟩ ⟨2025, 1, 8⟩ = 1.01 ∧
    (1.01 : ℚ) ^ ((toOrdinal ⟨2025, 1, 8⟩ - toOrdinal ⟨2025, 1, 8⟩).toNat) = 1 ∧
    (1.01 : ℚ) ≠ 1 := by
  refine ⟨?_, ?_, by norm_num⟩
  · unfold calculate_potential_progress
    rw [sub_self, foldl_mul_range]
    norm_num [DAILY_UP_FACTOR]
  · rw [sub_self]
    norm_num

/-- Claim C9: when the goal id is absent from the goal table,
src/tracker_utils.py's `update_goal` returns the structured
"Goal ID not found" error and leaves both tables unchanged. -/
theorem claim9_notfound (data : List TU.Goal) (history : List HistRow)
    (goal_id : String) (pct : Int) (d : Date)
    (h : ∀ g ∈ data, g.goalID ≠ goal_id) :
    TU.update_goal data history goal_id pct d =
      (data, history, .error "Goal ID not found") := by
  unfold TU.update_goal
  have hnil : data.filter (fun g => g.goalID == goal_id) = [] := by
    rw [List.filter_eq_nil_iff]
    intro g hg
    simpa using h g hg
  rw [hnil]
  rfl

/-- Claim C9 witness: updating the missing id `G9` returns the not-found
error and the unchanged tables. -/
theorem claim9_notfound_witness :
    (∀ g ∈ exTUData, g.goalID ≠ "G9") ∧
    TU.update_goal exTUData [] "G9" 100 ⟨2025, 1, 8⟩ =
      (exTUData, [], .error "Goal ID not found") :=
  ⟨by decide, claim9_notfound exTUData [] "G9" 100 ⟨2025, 1, 8⟩ (by decide)⟩

/-- Claim C10: any outcome other than 100 and 50 takes the else branch —
progress is divided by 1.01, the recorded change -(0.01) is negative, and the
outcome value itself is stored verbatim in the new history event. -/
theorem claim10_default_branch (s : State) (goal_id goal_name : String)
    (pct : Int) (today : Date) (s' : State) (np : ℚ)
    (h1 : pct ≠ 100) (h2 : pct ≠ 50)
    (h : update_progress s goal_id goal_name pct today = some (s', .success np)) :
    ∃ g, (s.data.filter (fun x => x.goalID == goal_id)).head? = some g ∧
      np = g.progress / 1.01 ∧
      s'.history.getLast? = some ⟨goal_id, goal_name, today, np, pct, -(0.01 : ℚ)⟩ ∧
      (-(0.01 : ℚ)) < 0 := by
  obtain ⟨g, hg, hnp, hs'⟩ := applyUpdate_success_elim _ _ _ _ _ _ _
    (update_progress_success_elim _ _ _ _ _ _ _ h)
  subst hnp
  subst hs'
  have hch : engineChange pct = -(0.01 : ℚ) := by
    unfold engineChange
    rw [if_neg h1, if_neg h2]
    norm_num [DOWN_FACTOR]
  refine ⟨g, hg, ?_, ?_, by norm_num⟩
  · unfold engineNewProgress
    rw [if_neg h1, if_neg h2]
    rfl
  · rw [List.getLast?_concat, hch]

/-- Claim C10 witness: outcome 75 divides the progress by 1.01, records a
negative change and stores 75 verbatim. -/
theorem claim10_default_branch_witness :
    ((75 : Int) ≠ 100) ∧ ((75 : Int) ≠ 50) ∧
    ∃ g, (exDaily.data.filter (fun x => x.goalID == "G1")).head? = some g ∧
      (100/101 : ℚ) = g.progress / 1.01 ∧
      (exDailyAfterDefault 75).history.getLast? =
        some ⟨"G1", "gym", ⟨2025, 1, 2⟩, 100/101, 75, -(0.01 : ℚ)⟩ ∧
      (-(0.01 : ℚ)) < 0 := by
  have hup : update_progress exDaily "G1" "gym" 75 ⟨2025, 1, 2⟩ =
      some (exDailyAfterDefault 75, .success (100/101)) := by
    rw [update_progress_exDaily]
    norm_num [engineNewProgress, engineChange, DOWN_FACTOR, exDailyAfterDefault]
  exact ⟨by decide, by decide,
    claim10_default_branch exDaily "G1" "gym" 75 ⟨2025, 1, 2⟩
      (exDailyAfterDefault 75) (100/101) (by decide) (by decide) hup⟩

theorem mem_of_head?_eq_some {α : Type} {l : List α} {a : α}
    (h : l.head? = some a) : a ∈ l :=
  List.mem_of_mem_head? (by rw [h]; exact rfl)

/-- The state after recording outcome 100 on the progress-2 goal of
`exProg2` the day after creation. -/
def exProg2After : State :=
  { data := [⟨"G1", "gym", "Daily", 101/50, ⟨2025, 1, 1⟩, 1⟩],
    history := [⟨"G1", "gym", ⟨2025, 1, 1⟩, 2, 0, 0⟩,
                ⟨"G1", "gym", ⟨2025, 1, 2⟩, 101/50, 100, 1/100⟩] }

/-- Claim C4 (amended): a `record_progress` call on the goal's creation day is
rejected for every frequency — the creation event seeds the current gating
period — but with the generic already-updated message of the frequency
branch; no dedicated creation-day reason exists. -/
theorem claim4_creation_day (s : State) (name freq goal_name : String)
    (pct : Int) (today : Date) :
    ∃ reason, update_progress (add_goal s name freq today).1
        (add_goal s name freq today).2 goal_name pct today =
      some ((add_goal s name freq today).1, .cadenceRejected reason) := by
  have hb : ((add_goal s name freq today).1.history.any
      (gateBlocks (get_goal_frequency (add_goal s name freq today).1
        (add_goal s name freq today).2) (add_goal s name freq today).2 today)) = true := by
    rw [List.any_eq_true]
    refine ⟨⟨(add_goal s name freq today).2, name.trim, today, 1.0, 0, 0.0⟩, ?_, ?_⟩
    · simp [add_goal]
    · simp [gateBlocks]
  exact ⟨_, by rw [update_progress_eq, if_pos hb]⟩

/-- Claim C4 counterexample: an update on the creation day of a fresh Daily
goal and an update on a later, already-updated day are rejected with the
identical reason string, so the rejection reason does not distinguish the
creation-day case. -/
theorem claim4_counterexample :
    update_progress (add_goal State.empty "a" "Daily" ⟨2025, 1, 8⟩).1 "G1" "a"
        100 ⟨2025, 1, 8⟩ =
      some ((add_goal State.empty "a" "Daily" ⟨2025, 1, 8⟩).1,
        .cadenceRejected "Already updated today.") ∧
    update_progress exTwoDay "G1" "a" 100 ⟨2025, 1, 9⟩ =
      some (exTwoDay, .cadenceRejected "Already updated today.") := by
  constructor
  · rw [update_progress_eq, if_pos (by decide)]
    rfl
  · rw [update_progress_eq, if_pos (by decide)]
    rfl

/-- Claim C8 (amended): each recorded event stores the post-update progress
snapshot and a fixed per-outcome change constant (+0.01, +0.005 or -0.01)
independent of the prior value; `progress_after = progress_before + change`
holds exactly when the prior progress is 1 for outcome 100 or 50, or 1.01 for
the remaining outcomes — not in general. -/
theorem claim8_change_constant (s : State) (goal_id goal_name : String)
    (pct : Int) (today : Date) (s' : State) (np : ℚ) (g : GoalRow)
    (hg : (s.data.filter (fun x => x.goalID == goal_id)).head? = some g)
    (h : update_progress s goal_id goal_name pct today = some (s', .success np)) :
    ∃ e, s'.history.getLast? = some e ∧ e.progress = np ∧
      e.change = (if pct = 100 then (0.01 : ℚ) else if pct = 50 then 0.005 else -0.01) ∧
      (e.progress = g.progress + e.change ↔
        ((pct = 100 ∨ pct = 50) ∧ g.progress = 1) ∨
        (pct ≠ 100 ∧ pct ≠ 50 ∧ g.progress = 1.01)) := by
  obtain ⟨g', hg', hnp, hs'⟩ := applyUpdate_success_elim _ _ _ _ _ _ _
    (update_progress_success_elim _ _ _ _ _ _ _ h)
  rw [hg] at hg'
  obtain rfl : g = g' := Option.some.inj hg'
  subst hnp
  subst hs'
  refine ⟨_, List.getLast?_concat _, rfl, ?_, ?_⟩
  · by_cases h1 : pct = 100
    · norm_num [engineChange, DAILY_UP_FACTOR, h1]
    · by_cases h2 : pct = 50
      · norm_num [engineChange, HALF_UP_FACTOR, h1, h2]
      · norm_num [engineChange, DOWN_FACTOR, h1, h2]
  · show engineNewProgress g.progress pct = g.progress + engineChange pct ↔ _
    by_cases h1 : pct = 100
    · subst h1
      rw [engineNewProgress, engineChange, if_pos rfl, if_pos rfl]
      have hd : DAILY_UP_FACTOR = 101/100 := by norm_num [DAILY_UP_FACTOR]
      rw [hd]
      constructor
      · intro he
        exact Or.inl ⟨Or.inl rfl, by linarith⟩
      · rintro (⟨_, hp⟩ | ⟨hc, _, _⟩)
        · rw [hp]
          norm_num
        · exact absurd rfl hc
    · by_cases h2 : pct = 50
      · subst h2
        rw [engineNewProgress, engineChange, if_neg h1, if_neg h1, if_pos rfl,
          if_pos rfl]
        have hd : HALF_UP_FACTOR = 201/200 := by norm_num [HALF_UP_FACTOR]
        rw [hd]
        constructor
        · intro he
          exact Or.inl ⟨Or.inr rfl, by linarith⟩
        · rintro (⟨_, hp⟩ | ⟨_, hc, _⟩)
          · rw [hp]
            norm_num
          · exact absurd rfl hc
      · rw [engineNewProgress, engineChange, if_neg h1, if_neg h1, if_neg h2,
          if_neg h2]
        have hd : DOWN_FACTOR = 101/100 := by norm_num [DOWN_FACTOR]
        rw [hd]
        constructor
        · intro he
          rw [div_eq_iff (by norm_num : (101/100 : ℚ) ≠ 0)] at he
          refine Or.inr ⟨h1, h2, by linarith⟩
        · rintro (⟨hc, _⟩ | ⟨_, _, hp⟩)
          · rcases hc with hc | hc
            · exact absurd hc h1
            · exact absurd hc h2
          · rw [hp]
            norm_num

/-- Claim C8 witness: for a goal at progress 1, outcome 100 stores change
0.01 and there `progress_after = progress_before + change` does hold. -/
theorem claim8_change_constant_witness :
    ((exDaily.data.filter (fun x => x.goalID == "G1")).head? =
      some ⟨"G1", "gym", "Daily", 1, ⟨2025, 1, 1⟩, 1⟩) ∧
    ∃ e, exDailyAfter100.history.getLast? = some e ∧ e.progress = (101/100 : ℚ) ∧
      e.change = (if (100 : Int) = 100 then (0.01 : ℚ)
        else if (100 : Int) = 50 then 0.005 else -0.01) ∧
      (e.progress = (⟨"G1", "gym", "Daily", 1, ⟨2025, 1, 1⟩, 1⟩ : GoalRow).progress +
          e.change ↔
        (((100 : Int) = 100 ∨ (100 : Int) = 50) ∧
          (⟨"G1", "gym", "Daily", 1, ⟨2025, 1, 1⟩, 1⟩ : GoalRow).progress = 1) ∨
        ((100 : Int) ≠ 100 ∧ (100 : Int) ≠ 50 ∧
          (⟨"G1", "gym", "Daily", 1, ⟨2025, 1, 1⟩, 1⟩ : GoalRow).progress = 1.01)) := by
  have hup : update_progress exDaily "G1" "gym" 100 ⟨2025, 1, 2⟩ =
      some (exDailyAfter100, .success (101/100)) := by
    rw [update_progress_exDaily]
    norm_num [engineNewProgress, engineChange, DAILY_UP_FACTOR, exDailyAfter100]
  exact ⟨by decide,
    claim8_change_constant exDaily "G1" "gym" 100 ⟨2025, 1, 2⟩ exDailyAfter100
      (101/100) ⟨"G1", "gym", "Daily", 1, ⟨2025, 1, 1⟩, 1⟩ (by decide) hup⟩

/-- Claim C8 counterexample: with prior progress 2 and outcome 100 the stored
change is 0.01 while the actual step is 0.02, so
`progress_after = progress_before + change` fails. -/
theorem claim8_counterexample :
    exProg2.data = [⟨"G1", "gym", "Daily", 2, ⟨2025, 1, 1⟩, 1⟩] ∧
    update_progress exProg2 "G1" "gym" 100 ⟨2025, 1, 2⟩ =
      some (exProg2After, .success (101/50)) ∧
    exProg2After.history.getLast?.map (fun e => (e.progress, e.change)) =
      some (101/50, 1/100) ∧
    (2 : ℚ) + 1/100 ≠ 101/50 := by
  refine ⟨rfl, ?_, rfl, by norm_num⟩
  rw [update_progress_eq, if_neg (by decide),
    applyUpdate_of_head _ _ _ _ _ ⟨"G1", "gym", "Daily", 2, ⟨2025, 1, 1⟩, 1⟩ (by decide)]
  norm_num [exProg2, exProg2After, engineNewProgress, engineChange, DAILY_UP_FACTOR]

/-- Test for a delete operation. -/
def isDelOp : Op → Bool
  | .del _ => true
  | _ => false

/-- Test for a goal-creation operation. -/
def isAddOp : Op → Bool
  | .add _ _ _ => true
  | _ => false

/-- The ids `G start, G (start+1), ...` of `k` consecutively created goals. -/
def seqIds (start k : Nat) : List String :=
  (List.range k).map (fun i => "G" ++ toString (start + i))

/-- The operation sequence of the id-reuse scenario: create two goals, delete
the first, create a third. -/
def exReuseOps : List Op :=
  [.add "a" "Daily" ⟨2025, 1, 8⟩, .add "b" "Daily" ⟨2025, 1, 8⟩,
   .del "G1", .add "c" "Daily" ⟨2025, 1, 8⟩]

theorem step_add_data (s : State) (name freq : String) (today : Date) :
    (step s (.add name freq today)).data = s.data ++
      [⟨"G" ++ toString (s.data.length + 1), name.trim, freq, 1.0, today,
        get_week_number today⟩] := rfl

theorem seqIds_succ (start k : Nat) :
    seqIds start (k + 1) = ("G" ++ toString start) :: seqIds (start + 1) k := by
  unfold seqIds
  rw [List.range_succ_eq_map, List.map_cons, List.map_map]
  congr 1
  apply List.map_congr_left
  intro i _
  show "G" ++ toString (start + (i + 1)) = "G" ++ toString (start + 1 + i)
  rw [show start + (i + 1) = start + 1 + i from by omega]

theorem update_data_map_goalID (s : State) (goal_id : String) (np : ℚ) :
    (s.data.map (fun x =>
        if x.goalID == goal_id then { x with progress := np } else x)).map
      (fun g => g.goalID) = s.data.map (fun g => g.goalID) := by
  rw [List.map_map]
  apply List.map_congr_left
  intro x _
  by_cases hid : (x.goalID == goal_id) = true
  · simp [Function.comp, hid]
  · simp [Function.comp, hid]

theorem step_update_ids (s : State) (goal_id goal_name : String) (pct : Int)
    (today : Date) :
    (step s (.update goal_id goal_name pct today)).data.map (fun g => g.goalID) =
      s.data.map (fun g => g.goalID) := by
  have hstep : step s (.update goal_id goal_name pct today) =
      (match update_progress s goal_id goal_name pct today with
        | some (s', _) => s'
        | none => s) := rfl
  rw [hstep]
  cases hu : update_progress s goal_id goal_name pct today with
  | none => rfl
  | some out =>
    obtain ⟨s', r⟩ := out
    show s'.data.map (fun g => g.goalID) = _
    rw [update_progress_eq] at hu
    split at hu
    · simp only [Option.some.injEq, Prod.mk.injEq] at hu
      rw [← hu.1]
    · unfold applyUpdate at hu
      split at hu
      · exact absurd hu (by simp)
      next g hg =>
        simp only [Option.some.injEq, Prod.mk.injEq] at hu
        rw [← hu.1]
        exact update_data_map_goalID s goal_id _

theorem run_ids_aux (ops : List Op) :
    ∀ s : State, (∀ op ∈ ops, isDelOp op = false) →
      (run s ops).data.map (fun g => g.goalID) =
        s.data.map (fun g => g.goalID) ++
          seqIds (s.data.length + 1) (ops.countP isAddOp) := by
  induction ops with
  | nil =>
    intro s _
    simp [run, seqIds]
  | cons op ops ih =>
    intro s h
    have hop := h op (List.mem_cons_self op ops)
    have hops : ∀ o ∈ ops, isDelOp o = false :=
      fun o ho => h o (List.mem_cons_of_mem _ ho)
    have hrun : run s (op :: ops) = run (step s op) ops := rfl
    rw [hrun]
    cases op with
    | add name freq today =>
      rw [ih _ hops, List.countP_cons_of_pos isAddOp _ (by rfl), seqIds_succ]
      have hdata := step_add_data s name freq today
      have hlen : (step s (.add name freq today)).data.length = s.data.length + 1 := by
        rw [hdata, List.length_append, List.length_singleton]
      rw [hlen, hdata, List.map_append]
      simp [List.append_assoc]
    | update goal_id goal_name pct today =>
      rw [ih _ hops, List.countP_cons_of_neg isAddOp _ (by simp [isAddOp]),
        step_update_ids]
      have hlen : (step s (.update goal_id goal_name pct today)).data.length =
          s.data.length := by
        have := congrArg List.length (step_update_ids s goal_id goal_name pct today)
        simpa using this
      rw [hlen]
    | del goal_id =>
      simp [isDelOp] at hop

/-- Claim C5 (amended): ids are `G(live-goal-count + 1)` at creation, so in
any deletion-free run from the empty state the live goals carry the
sequential ids G1, G2, ...; after a deletion, however, a later creation can
reuse an id, including the id of a live goal. -/
theorem claim5_sequential_ids (ops : List Op)
    (h : ∀ op ∈ ops, isDelOp op = false) :
    (run State.empty ops).data.map (fun g => g.goalID) =
      (List.range (ops.countP isAddOp)).map (fun i => "G" ++ toString (i + 1)) := by
  have haux := run_ids_aux ops State.empty h
  rw [show State.empty.data = [] from rfl] at haux
  simp only [List.map_nil, List.nil_append, List.length_nil] at haux
  rw [haux]
  unfold seqIds
  apply List.map_congr_left
  intro i _
  rw [show 0 + 1 + i = i + 1 from by omega]

/-- Claim C5 witness: two creations with no deletion yield the ids G1, G2. -/
theorem claim5_sequential_ids_witness :
    (∀ op ∈ [Op.add "a" "Daily" (⟨2025, 1, 8⟩ : Date),
        Op.add "b" "Weekly" ⟨2025, 1, 8⟩], isDelOp op = false) ∧
    (run State.empty [Op.add "a" "Daily" ⟨2025, 1, 8⟩,
        Op.add "b" "Weekly" ⟨2025, 1, 8⟩]).data.map (fun g => g.goalID) =
      (List.range ([Op.add "a" "Daily" (⟨2025, 1, 8⟩ : Date),
        Op.add "b" "Weekly" ⟨2025, 1, 8⟩].countP isAddOp)).map
          (fun i => "G" ++ toString (i + 1)) :=
  ⟨by decide, claim5_sequential_ids _ (by decide)⟩

/-- Claim C5 counterexample: after create, create, delete G1, create, the
goal table holds the ids [G2, G2] — the id G2 is reused while still live, so
ids are neither unique nor never-reused. -/
theorem claim5_counterexample :
    (run State.empty exReuseOps).data.map (fun g => g.goalID) = ["G2", "G2"] ∧
    ¬ ((run State.empty exReuseOps).data.map (fun g => g.goalID)).Nodup := by
  refine ⟨by decide, by decide⟩

/-- Creation date of the demonstration goal used for the unboundedness part
of the positivity claim. -/
def demoStart : Date := ⟨2000, 1, 1⟩

/-- The update dates of the demonstration run: one per later year, so every
Daily gate passes. -/
def demoDate (i : Nat) : Date := ⟨2001 + i, 1, 1⟩

/-- Create one Daily goal and record outcome 100 on `n` distinct days. -/
def demoOps (n : Nat) : List Op :=
  .add "g" "Daily" demoStart ::
    (List.range n).map (fun i => .update "G1" "g" 100 (demoDate i))

/-- The goal row after `n` successful 100% updates of the demonstration
run. -/
def demoGoal (n : Nat) : GoalRow :=
  ⟨"G1", "g".trim, "Daily", DAILY_UP_FACTOR ^ n, demoStart,
    get_week_number demoStart⟩

/-- The history after `n` successful 100% updates of the demonstration
run. -/
def demoHist (n : Nat) : List HistRow :=
  ⟨"G1", "g".trim, demoStart, 1.0, 0, 0.0⟩ ::
    (List.range n).map (fun i =>
      ⟨"G1", "g", demoDate i, DAILY_UP_FACTOR ^ (i + 1), 100,
        DAILY_UP_FACTOR - 1.0⟩)

theorem run_append (s : State) (l1 l2 : List Op) :
    run s (l1 ++ l2) = run (run s l1) l2 :=
  List.foldl_append _ _ _ _

theorem demo_gate_passes (k : Nat) :
    ((demoHist k).any (fun h => h.goalID == "G1" && (h.date == demoDate k))) =
      false := by
  rw [Bool.eq_false_iff]
  intro hany
  rw [List.any_eq_true] at hany
  obtain ⟨e, he, hpred⟩ := hany
  simp only [Bool.and_eq_true, beq_iff_eq] at hpred
  obtain ⟨-, hdate⟩ := hpred
  unfold demoHist at he
  rcases List.mem_cons.mp he with he | he
  · subst he
    simp only [demoStart, demoDate, Date.mk.injEq] at hdate
    omega
  · rcases List.mem_map.mp he with ⟨i, hi, rfl⟩
    simp only [demoDate, Date.mk.injEq] at hdate
    rw [List.mem_range] at hi
    omega

theorem demo_run (n : Nat) :
    run State.empty (demoOps n) = ⟨[demoGoal n], demoHist n⟩ := by
  induction n with
  | zero =>
    show (add_goal State.empty "g" "Daily" demoStart).1 = _
    rw [show (add_goal State.empty "g" "Daily" demoStart).1 =
        ⟨State.empty.data ++ [⟨"G" ++ toString (State.empty.data.length + 1),
            "g".trim, "Daily", 1.0, demoStart, get_week_number demoStart⟩],
          State.empty.history ++ [⟨"G" ++ toString (State.empty.data.length + 1),
            "g".trim, demoStart, 1.0, 0, 0.0⟩]⟩ from rfl]
    rw [State.mk.injEq]
    constructor
    · show [_] = [demoGoal 0]
      rw [List.cons.injEq]
      refine ⟨?_, rfl⟩
      unfold demoGoal
      rw [GoalRow.mk.injEq]
      exact ⟨by decide, rfl, rfl, by norm_num [DAILY_UP_FACTOR], rfl, rfl⟩
    · show [_] = demoHist 0
      unfold demoHist
      rw [List.range_zero, List.map_nil, List.cons.injEq]
      refine ⟨?_, rfl⟩
      rw [HistRow.mk.injEq]
      exact ⟨by decide, rfl, rfl, rfl, rfl, rfl⟩
  | succ k ih =>
    have hops : demoOps (k + 1) = demoOps k ++ [.update "G1" "g" 100 (demoDate k)] := by
      unfold demoOps
      rw [List.range_succ, List.map_append, List.cons_append]
      rfl
    rw [hops, run_append, ih]
    have hfreq : get_goal_frequency ⟨[demoGoal k], demoHist k⟩ "G1" = "Daily" := by
      simp [get_goal_frequency, demoGoal]
    have hgate : ¬ (((⟨[demoGoal k], demoHist k⟩ : State).history.any
        (gateBlocks (get_goal_frequency ⟨[demoGoal k], demoHist k⟩ "G1") "G1"
          (demoDate k))) = true) := by
      rw [hfreq, gateBlocks_other _ _ _ (by decide) (by decide)]
      show ((demoHist k).any
        (fun h => h.goalID == "G1" && (h.date == demoDate k))) ≠ true
      rw [demo_gate_passes k]
      simp
    have hhead : ((⟨[demoGoal k], demoHist k⟩ : State).data.filter
        (fun x => x.goalID == "G1")).head? = some (demoGoal k) := by
      simp [demoGoal]
    have hup : update_progress ⟨[demoGoal k], demoHist k⟩ "G1" "g" 100 (demoDate k) =
        some (⟨[demoGoal (k + 1)], demoHist (k + 1)⟩,
          .success (DAILY_UP_FACTOR ^ (k + 1))) := by
      rw [update_progress_eq, if_neg hgate,
        applyUpdate_of_head _ _ _ _ _ (demoGoal k) hhead]
      have hnp : engineNewProgress (demoGoal k).progress 100 =
          DAILY_UP_FACTOR ^ (k + 1) := by
        unfold engineNewProgress demoGoal
        rw [if_pos rfl, pow_succ]
      have hch : engineChange 100 = DAILY_UP_FACTOR - 1.0 := by
        unfold engineChange
        rw [if_pos rfl]
      rw [hnp, hch, Option.some.injEq, Prod.mk.injEq, State.mk.injEq]
      refine ⟨⟨?_, ?_⟩, rfl⟩
      · simp [demoGoal]
      · show demoHist k ++ [_] = demoHist (k + 1)
        unfold demoHist
        rw [List.range_succ, List.map_append, List.cons_append]
        rfl
    have hstep : step ⟨[demoGoal k], demoHist k⟩ (.update "G1" "g" 100 (demoDate k)) =
        (match update_progress ⟨[demoGoal k], demoHist k⟩ "G1" "g" 100 (demoDate k) with
          | some (s', _) => s'
          | none => ⟨[demoGoal k], demoHist k⟩) := rfl
    show step ⟨[demoGoal k], demoHist k⟩ (.update "G1" "g" 100 (demoDate k)) = _
    rw [hstep, hup]

theorem engineNewProgress_pos (p : ℚ) (pct : Int) (hp : 0 < p) :
    0 < engineNewProgress p pct := by
  unfold engineNewProgress
  split
  · exact mul_pos hp (by norm_num [DAILY_UP_FACTOR])
  · split
    · exact mul_pos hp (by norm_num [HALF_UP_FACTOR])
    · exact div_pos hp (by norm_num [DOWN_FACTOR])

theorem step_preserves_pos (s : State) (op : Op)
    (h : ∀ g ∈ s.data, 0 < g.progress) :
    ∀ g ∈ (step s op).data, 0 < g.progress := by
  cases op with
  | add name freq today =>
    intro g hg
    rw [step_add_data] at hg
    rcases List.mem_append.mp hg with hg | hg
    · exact h g hg
    · rw [List.mem_singleton] at hg
      subst hg
      norm_num
  | del goal_id =>
    intro g hg
    have hg' : g ∈ s.data.filter (fun x => !(x.goalID == goal_id)) := hg
    exact h g (List.mem_filter.mp hg').1
  | update goal_id goal_name pct today =>
    intro g hg
    have hstep : step s (.update goal_id goal_name pct today) =
        (match update_progress s goal_id goal_name pct today with
          | some (s', _) => s'
          | none => s) := rfl
    rw [hstep] at hg
    rcases hget : update_progress s goal_id goal_name pct today with _ | out
    · rw [hget] at hg
      exact h g hg
    · rw [hget] at hg
      obtain ⟨s', r⟩ := out
      rw [update_progress_eq] at hget
      split at hget
      · simp only [Option.some.injEq, Prod.mk.injEq] at hget
        obtain ⟨h1, -⟩ := hget
        subst h1
        exact h g hg
      · unfold applyUpdate at hget
        split at hget
        · exact absurd hget (by simp)
        next gg hgg =>
          simp only [Option.some.injEq, Prod.mk.injEq] at hget
          obtain ⟨h1, -⟩ := hget
          rw [← h1] at hg
          have hgmem : g ∈ s.data.map (fun x =>
              if x.goalID == goal_id then
                { x with progress := engineNewProgress gg.progress pct }
              else x) := hg
          rcases List.mem_map.mp hgmem with ⟨x, hx, rfl⟩
          by_cases hid : (x.goalID == goal_id) = true
          · rw [if_pos hid]
            have hgg_mem : gg ∈ s.data :=
              (List.mem_filter.mp (mem_of_head?_eq_some hgg)).1
            exact engineNewProgress_pos _ _ (h gg hgg_mem)
          · rw [if_neg hid]
            exact h x hx

theorem run_preserves_pos (ops : List Op) :
    ∀ s : State, (∀ g ∈ s.data, 0 < g.progress) →
      ∀ g ∈ (run s ops).data, 0 < g.progress := by
  induction ops with
  | nil => exact fun s h => h
  | cons op ops ih => exact fun s h => ih _ (step_preserves_pos s op h)

/-- Claim C3: every goal reachable from the empty state keeps a strictly
positive progress after any operation sequence, and no bound caps it — for
every rational B some reachable goal exceeds B. -/
theorem claim3_progress_positive (ops : List Op) (g : GoalRow)
    (hg : g ∈ (run State.empty ops).data) :
    0 < g.progress ∧
      ∀ B : ℚ, ∃ ops2 g2, g2 ∈ (run State.empty ops2).data ∧ B < g2.progress := by
  constructor
  · exact run_preserves_pos ops State.empty
      (fun g hgg => absurd hgg (List.not_mem_nil g)) g hg
  · intro B
    obtain ⟨n, hn⟩ := pow_unbounded_of_one_lt B
      (show (1 : ℚ) < DAILY_UP_FACTOR from by norm_num [DAILY_UP_FACTOR])
    exact ⟨demoOps n, demoGoal n,
      by rw [demo_run]; exact List.mem_singleton_self _, hn⟩

/-- Claim C3 witness: the freshly created goal of a one-operation run has
positive progress, and progress is unbounded over runs. -/
theorem claim3_progress_positive_witness :
    (⟨"G1", "a".trim, "Daily", 1.0, ⟨2025, 1, 8⟩, 2⟩ : GoalRow) ∈
      (run State.empty [Op.add "a" "Daily" ⟨2025, 1, 8⟩]).data ∧
    (0 < (⟨"G1", "a".trim, "Daily", (1.0 : ℚ), ⟨2025, 1, 8⟩, 2⟩ : GoalRow).progress ∧
      ∀ B : ℚ, ∃ ops2 g2, g2 ∈ (run State.empty ops2).data ∧ B < g2.progress) := by
  have hmem : (⟨"G1", "a".trim, "Daily", 1.0, ⟨2025, 1, 8⟩, 2⟩ : GoalRow) ∈
      (run State.empty [Op.add "a" "Daily" ⟨2025, 1, 8⟩]).data := by
    show _ ∈ (step State.empty (.add "a" "Daily" ⟨2025, 1, 8⟩)).data
    rw [step_add_data]
    apply List.mem_append_right
    apply List.mem_singleton.mpr
    rw [GoalRow.mk.injEq]
    exact ⟨by decide, rfl, rfl, rfl, rfl, by decide⟩
  exact ⟨hmem,
    claim3_progress_positive [Op.add "a" "Daily" ⟨2025, 1, 8⟩] _ hmem⟩

end Tracker
